import Mathlib

/-!
Verification of the CNV-dashboard run-orchestration core.

Shallow embedding of the Python modules `backend/api/r_executor.py`,
`backend/api/result_parser.py`, `backend/api/status_monitor.py` and
`shared/utils.py`.  Numeric values (floats of the source) are modelled as
rationals; a pandas `NaN` (the mean of an empty column) is modelled by the
explicit `PyFloat.nan` constructor.  Filesystem and subprocess effects are
modelled by explicit oracle inputs: a directory listing is a list of
`(name, mtime)` entries in enumeration order, a file store is a function
from path to optional file content, and the subprocess outcome is an
explicit `ExecOutcome` value.  Python dictionaries with string keys are
modelled as association lists in insertion order.  Strings are modelled as
Lean `String`s restricted to ASCII, where Python's `str.isalnum` agrees
with `Char.isAlphanum`.
-/

namespace CNV

/-- A Python float value: a rational number or `NaN` (pandas produces `NaN`
for the mean of an empty column). -/
inductive PyFloat where
  | num (q : ℚ)
  | nan
  deriving DecidableEq, Repr

/-- A Python dict with string keys and float-like values, in insertion
order. -/
abbrev PyDict := List (String × PyFloat)

/-! ## `build_r_command` (r_executor.py, lines 148–192) -/

/-- The parameter dictionary accepted by `run_copykat_analysis` /
`build_r_command`.  Each field is `some v` when the key is present in the
dict and `none` when absent.  Values are modelled by the string they render
to on the command line (the source applies `str(...)` to numeric values). -/
structure Params where
  input_file : Option String
  sample_name : Option String
  output_dir : Option String
  genome : Option String
  ngene_chr : Option String
  win_size : Option String
  n_cores : Option String
  LOW_DR : Option String
  UP_DR : Option String
  KS_cut : Option String
  distance : Option String
  cell_line : Option String
  plot_genes : Option String
  deriving DecidableEq, Repr

/-- One `if key in params: command.extend([flag, value])` step of
`build_r_command`: two tokens when the key is present, nothing when
absent. -/
def optArg (flag : String) (v : Option String) : List String :=
  match v with
  | none => []
  | some s => [flag, s]

/-- The hard-coded script path passed by `run_copykat_analysis`
(r_executor.py line 83). -/
def r_script_path : String := "backend/r_scripts/copykat_analysis.R"

/-- `build_r_command` (r_executor.py 148–192).  Returns `none` when a
required key is missing (a Python `KeyError`); otherwise the exact argument
list, required flags first, then the optional flags in source order.
`plot_genes` is never read by the source function. -/
def build_r_command (script_path : String) (p : Params) : Option (List String) :=
  match p.input_file, p.output_dir, p.sample_name, p.genome with
  | some i, some o, some n, some g =>
      some (["Rscript", script_path,
             "--input", i,
             "--output", o,
             "--name", n,
             "--genome", g]
        ++ optArg "--ngene_chr" p.ngene_chr
        ++ optArg "--win_size" p.win_size
        ++ optArg "--cores" p.n_cores
        ++ optArg "--low_dr" p.LOW_DR
        ++ optArg "--up_dr" p.UP_DR
        ++ optArg "--ks_cut" p.KS_cut
        ++ optArg "--distance" p.distance
        ++ optArg "--cell_line" p.cell_line)
  | _, _, _, _ => none

/-- Number of command-line tokens contributed by one optional key. -/
def optCount (v : Option String) : ℕ :=
  match v with
  | none => 0
  | some _ => 1

/-- How many of the eight optional keys handled by `build_r_command` are
present in the dict. -/
def numPresentOpts (p : Params) : ℕ :=
  optCount p.ngene_chr + optCount p.win_size + optCount p.n_cores +
  optCount p.LOW_DR + optCount p.UP_DR + optCount p.KS_cut +
  optCount p.distance + optCount p.cell_line

/-! ## `run_copykat_analysis` (r_executor.py, lines 20–145) -/

/-- Outcome of the `subprocess.run(..., check=True)` call:
`ok runtime` when the child exits 0 (with the measured wall-clock runtime
in minutes), `calledProcessError` when it exits non-zero (the
`subprocess.CalledProcessError` branch), `otherError` for any other
exception raised inside the `try` block. -/
inductive ExecOutcome where
  | ok (runtime : ℚ)
  | calledProcessError (returncode : ℤ) (stderr : String)
  | otherError (msg : String)
  deriving DecidableEq, Repr

/-- Oracle for the effects `run_copykat_analysis` performs: the subprocess
outcome, the value `find_output_directory` resolves on the ambient
filesystem, and the values `locate_output_files` /
`extract_summary_statistics` produce there. -/
structure World where
  exec : ExecOutcome
  foundDir : Option String
  locatedFiles : List (String × String)
  summaryStats : PyDict

/-- The result dictionary of `run_copykat_analysis` (the success branch of
the source additionally carries a `timestamp` key, irrelevant to every
claim and omitted from the model). -/
structure RunResult where
  success : Bool
  error : Option String
  output_dir : Option String
  files : List (String × String)
  summary : PyDict
  runtime_minutes : ℚ
  deriving DecidableEq, Repr

/-- The `for param in required_params: if param not in params` loop
(r_executor.py 70–72): the first missing key among
`input_file, sample_name, output_dir, genome`, in that order. -/
def requiredMissing (p : Params) : Option String :=
  if p.input_file.isNone then some "input_file"
  else if p.sample_name.isNone then some "sample_name"
  else if p.output_dir.isNone then some "output_dir"
  else if p.genome.isNone then some "genome"
  else none

/-- `run_copykat_analysis` (r_executor.py 20–145).  The second component
records whether the `subprocess.run` call was reached (it is reached
exactly when required-parameter validation passes). -/
def run_copykat_analysis (p : Params) (w : World) : RunResult × Bool :=
  match requiredMissing p with
  | some param =>
      ({ success := false,
         error := some ("Missing required parameter: " ++ param),
         output_dir := none, files := [], summary := [],
         runtime_minutes := 0 }, false)
  | none =>
      match w.exec with
      | .ok runtime =>
          match w.foundDir with
          | some dir =>
              ({ success := true, output_dir := some dir,
                 files := w.locatedFiles, summary := w.summaryStats,
                 runtime_minutes := runtime, error := none }, true)
          | none =>
              ({ success := false,
                 error := some "Output directory not found",
                 output_dir := none, files := [], summary := [],
                 runtime_minutes := runtime }, true)
      | .calledProcessError _rc stderr =>
          ({ success := false,
             error := some ("R script failed: " ++ stderr),
             output_dir := none, files := [], summary := [],
             runtime_minutes := 0 }, true)
      | .otherError msg =>
          ({ success := false,
             error := some ("Unexpected error: " ++ msg),
             output_dir := none, files := [], summary := [],
             runtime_minutes := 0 }, true)

/-! ## `find_output_directory` (r_executor.py, lines 195–223) -/

/-- One entry of a directory listing: its name (relative to the base
directory) and its modification time. -/
structure DirEntry where
  name : String
  mtime : ℤ
  deriving DecidableEq, Repr

/-- Python's `max(cur :: rest, key=key)`: scans left to right and replaces
the current maximum only on a strictly greater key, so ties keep the
earlier element. -/
def pyMax (key : DirEntry → ℤ) (cur : DirEntry) : List DirEntry → DirEntry
  | [] => cur
  | x :: xs => pyMax key (if key x > key cur then x else cur) xs

/-- `find_output_directory` (r_executor.py 195–223).  `base` is `none` when
the base directory does not exist, otherwise the listing in enumeration
order.  `glob(f"{sample_name}_*")` is modelled as a name-prefix test (the
sample name is assumed free of glob metacharacters, as enforced by
sample-name validation). -/
def find_output_directory (base : Option (List DirEntry)) (sample_name : String) :
    Option String :=
  match base with
  | none => none
  | some listing =>
      match listing.filter (fun e => (sample_name ++ "_").data.isPrefixOf e.name.data) with
      | [] => none
      | e :: es => some (pyMax (fun d => d.mtime) e es).name

/-! ## Predictions tables and summaries (result_parser.py, r_executor.py) -/

/-- A parsed predictions table.  `hasPred` / `hasConf` record whether the
`copykat.pred` / `copykat.confidence` columns are present; each row carries
its label and its confidence value (the respective field is meaningful only
when the corresponding column is present; the confidence column is assumed
fully populated with numeric values). -/
structure PredTable where
  hasPred : Bool
  hasConf : Bool
  rows : List (String × ℚ)
  deriving DecidableEq, Repr

/-- pandas `Series.mean()`: `NaN` on an empty column, otherwise the
arithmetic mean. -/
def pandasMean (l : List ℚ) : PyFloat :=
  match l with
  | [] => .nan
  | _ => .num (l.sum / (l.length : ℚ))

/-- `df['copykat.pred'].value_counts().get(label, 0)`. -/
def predCount (t : PredTable) (label : String) : ℕ :=
  (t.rows.map Prod.fst).count label

/-- `generate_summary` (result_parser.py 107–138).  The dict is returned in
Python insertion order; every key, `mean_confidence` included, is always
present (the source initializes it to `0.0`). -/
def generate_summary (t : PredTable) : PyDict :=
  let n_cells : ℕ := t.rows.length
  let n_aneuploid : ℕ := if t.hasPred then predCount t "aneuploid" else 0
  let n_diploid : ℕ := if t.hasPred then predCount t "diploid" else 0
  let n_not_defined : ℕ := if t.hasPred then predCount t "not.defined" else 0
  let fraction : ℚ :=
    if t.hasPred then
      (if 0 < n_cells then (n_aneuploid : ℚ) / (n_cells : ℚ) else 0)
    else 0
  let mean_conf : PyFloat :=
    if t.hasConf then pandasMean (t.rows.map Prod.snd) else .num 0
  [("n_cells", .num n_cells),
   ("n_aneuploid", .num n_aneuploid),
   ("n_diploid", .num n_diploid),
   ("n_not_defined", .num n_not_defined),
   ("aneuploid_fraction", .num fraction),
   ("mean_confidence", mean_conf)]

/-- Content found at a path: `malformed` when `pd.read_csv` raises on it,
`table` when it parses. -/
inductive FileContent where
  | malformed
  | table (t : PredTable)
  deriving Repr

/-- The all-zero summary dict `extract_summary_statistics` initializes
(r_executor.py 263–269); it has no `mean_confidence` key. -/
def zeroExtractSummary : PyDict :=
  [("n_cells", .num 0),
   ("n_aneuploid", .num 0),
   ("n_diploid", .num 0),
   ("n_not_defined", .num 0),
   ("aneuploid_fraction", .num 0)]

/-- `extract_summary_statistics` (r_executor.py 253–294).  `fs` maps a path
to its content (`none` when the file does not exist).  The
`except Exception: pass` of the source means a malformed file leaves the
zero-initialized summary untouched. -/
def extract_summary_statistics (files : List (String × String))
    (fs : String → Option FileContent) : PyDict :=
  match files.lookup "predictions" with
  | none => zeroExtractSummary
  | some path =>
      if path = "" then zeroExtractSummary
      else
        match fs path with
        | none => zeroExtractSummary
        | some .malformed => zeroExtractSummary
        | some (.table t) =>
            let n_cells : ℕ := t.rows.length
            let n_aneuploid : ℕ := if t.hasPred then predCount t "aneuploid" else 0
            let n_diploid : ℕ := if t.hasPred then predCount t "diploid" else 0
            let n_not_defined : ℕ := if t.hasPred then predCount t "not.defined" else 0
            let fraction : ℚ :=
              if t.hasPred then
                (if 0 < n_cells then (n_aneuploid : ℚ) / (n_cells : ℚ) else 0)
              else 0
            [("n_cells", .num n_cells),
             ("n_aneuploid", .num n_aneuploid),
             ("n_diploid", .num n_diploid),
             ("n_not_defined", .num n_not_defined),
             ("aneuploid_fraction", .num fraction)]

/-! ## `validate_sample_name` (shared/utils.py, lines 142–161) -/

/-- Python `str.isalnum()` on the ASCII fragment: non-empty and every
character alphanumeric. -/
def pyIsalnum (l : List Char) : Bool :=
  !l.isEmpty && l.all Char.isAlphanum

/-- `validate_sample_name` (shared/utils.py 142–161): the
`(is_valid, error_message)` pair.  `name.replace('_', '')` is modelled by
filtering underscores out of the character list. -/
def validate_sample_name (name : String) : Bool × String :=
  if name = "" then (false, "Sample name cannot be empty")
  else if !pyIsalnum (name.data.filter (fun c => c != '_')) then
    (false, "Sample name must be alphanumeric (underscores allowed)")
  else if name.length > 50 then
    (false, "Sample name too long (max 50 characters)")
  else (true, "")

/-! ## `monitor_analysis_progress` (status_monitor.py, lines 16–100) -/

/-- One yielded status dict.  `success` and `error_code` are `none` on the
progress events, which do not carry those keys; the `timestamp` key is
omitted from the model. -/
structure Event where
  progress : ℚ
  message : String
  stage : String
  complete : Bool
  success : Option Bool
  error_code : Option ℤ
  deriving DecidableEq, Repr

/-- The fixed checkpoint list (status_monitor.py 45–52). -/
def stages : List (ℚ × String) :=
  [(1/10, "Loading and validating data..."),
   (2/10, "Quality control assessment..."),
   (3/10, "Preprocessing data..."),
   (4/10, "Running CopyKAT analysis..."),
   (9/10, "Processing results..."),
   (1, "Complete!")]

/-- The event yielded while the process is alive at checkpoint `i`;
`logMsg` is the (truthy) message `parse_log_for_progress` returned at that
tick, if any, which overrides the canned label. -/
def stageEvent (i : ℕ) (logMsg : Option String) : Event :=
  let st := stages.getD i (0, "")
  { progress := st.1,
    message := logMsg.getD st.2,
    stage := "Stage " ++ toString (i + 1) ++ "/" ++ toString stages.length,
    complete := false,
    success := none,
    error_code := none }

/-- The single terminal event yielded once `process.poll()` is non-`None`
(status_monitor.py 79–100). -/
def finalEvent (rc : ℤ) : Event :=
  if rc = 0 then
    { progress := 1, message := "Analysis completed successfully!",
      stage := "Complete", complete := true, success := some true,
      error_code := none }
  else
    { progress := 0, message := "Analysis failed with code " ++ toString rc,
      stage := "Error", complete := true, success := some false,
      error_code := some rc }

/-- `monitor_analysis_progress` for a process that polls alive `polls`
times and then terminates with return code `rc`.  Each alive iteration
yields the next checkpoint while checkpoints remain (iterations beyond the
sixth yield nothing), then exactly one terminal event is yielded. -/
def monitor_analysis_progress (polls : ℕ) (rc : ℤ) (logMsg : ℕ → Option String) :
    List Event :=
  ((List.range (min polls stages.length)).map (fun i => stageEvent i (logMsg i)))
    ++ [finalEvent rc]

/-! ## Concrete sample inputs used by counterexamples and witnesses -/

/-- A parameter dict carrying exactly the four required keys. -/
def baseParams : Params :=
  { input_file := some "in.txt", sample_name := some "s1",
    output_dir := some "out", genome := some "hg20",
    ngene_chr := none, win_size := none, n_cores := none,
    LOW_DR := none, UP_DR := none, KS_cut := none,
    distance := none, cell_line := none, plot_genes := none }

/-- A world in which the engine exits with code 1 and stderr `boom`. -/
def failWorld : World :=
  { exec := .calledProcessError 1 "boom", foundDir := none,
    locatedFiles := [], summaryStats := [] }

/-- A world in which the engine succeeds and the output directory
resolves. -/
def okWorld : World :=
  { exec := .ok 3, foundDir := some "out/s1_20240115",
    locatedFiles := [("heatmap", "h.jpeg")],
    summaryStats := zeroExtractSummary }

/-- A two-row predictions table with both columns present. -/
def confTable : PredTable :=
  { hasPred := true, hasConf := true, rows := [("aneuploid", 1/2), ("diploid", 1)] }

/-- A one-row predictions table lacking the confidence column. -/
def noConfTable : PredTable :=
  { hasPred := true, hasConf := false, rows := [("aneuploid", 9/10)] }

/-- An empty predictions table. -/
def emptyTable : PredTable :=
  { hasPred := true, hasConf := true, rows := [] }

/-! ## Substring occurrence (for reasoning about error strings) -/

/-- Whether `sub` occurs as a contiguous run inside a character list. -/
def subOccurs (sub : List Char) : List Char → Bool
  | [] => sub.isEmpty
  | c :: t => sub.isPrefixOf (c :: t) || subOccurs sub t

/-- Whether `sub` occurs as a substring of `hay`. -/
def strContains (hay sub : String) : Bool :=
  subOccurs sub.data hay.data

theorem subOccurs_self (sub : List Char) : subOccurs sub sub = true := by
  cases sub with
  | nil => rfl
  | cons c t => simp [subOccurs, List.isPrefixOf_iff_prefix]

theorem subOccurs_append_left (sub pre : List Char) :
    subOccurs sub (pre ++ sub) = true := by
  induction pre with
  | nil => simpa using subOccurs_self sub
  | cons c t ih => simp [subOccurs, ih]

/-- A string with a non-empty prefix is itself non-empty. -/
theorem str_prepend_ne_empty (s t : String) (h : s.data ≠ []) : s ++ t ≠ "" := by
  intro he
  apply h
  have h2 : (s ++ t).data = ("" : String).data := congrArg String.data he
  rw [String.data_append] at h2
  exact (List.append_eq_nil.mp h2).1

end CNV

namespace CNV

/-- C1: for every input parameter dictionary (and every subprocess /
filesystem behaviour), the result dictionary of `run_copykat_analysis`
satisfies the ResultBundle invariant: `success = true` implies `output_dir`
is non-null and `error` is null, and `success = false` implies `error` is
a non-null, non-empty string. -/
theorem run_copykat_analysis_result_invariant (p : Params) (w : World) :
    (((run_copykat_analysis p w).1).success = true →
      ((run_copykat_analysis p w).1).output_dir.isSome = true ∧
      ((run_copykat_analysis p w).1).error = none) ∧
    (((run_copykat_analysis p w).1).success = false →
      ∃ s, ((run_copykat_analysis p w).1).error = some s ∧ s ≠ "") := by
  unfold run_copykat_analysis
  cases hreq : requiredMissing p with
  | some k =>
      refine ⟨fun h => by simp at h, fun _ => ?_⟩
      exact ⟨"Missing required parameter: " ++ k, rfl,
        str_prepend_ne_empty "Missing required parameter: " k (by decide)⟩
  | none =>
      cases hex : w.exec with
      | ok runtime =>
          cases hdir : w.foundDir with
          | some dir => exact ⟨fun _ => ⟨rfl, rfl⟩, fun h => by simp at h⟩
          | none =>
              refine ⟨fun h => by simp at h, fun _ => ?_⟩
              exact ⟨"Output directory not found", rfl, by decide⟩
      | calledProcessError rc stderrS =>
          refine ⟨fun h => by simp at h, fun _ => ?_⟩
          exact ⟨"R script failed: " ++ stderrS, rfl,
            str_prepend_ne_empty "R script failed: " stderrS (by decide)⟩
      | otherError msg =>
          refine ⟨fun h => by simp at h, fun _ => ?_⟩
          exact ⟨"Unexpected error: " ++ msg, rfl,
            str_prepend_ne_empty "Unexpected error: " msg (by decide)⟩

theorem run_copykat_analysis_result_invariant_witness :
    (((run_copykat_analysis baseParams okWorld).1).output_dir.isSome = true ∧
      ((run_copykat_analysis baseParams okWorld).1).error = none) ∧
    (∃ s, ((run_copykat_analysis { baseParams with input_file := none }
        okWorld).1).error = some s ∧ s ≠ "") :=
  ⟨(run_copykat_analysis_result_invariant baseParams okWorld).1 rfl,
   (run_copykat_analysis_result_invariant
      { baseParams with input_file := none } okWorld).2 rfl⟩

/-- C10: when any of the four required keys is absent,
`run_copykat_analysis` returns a failure result naming exactly the first
missing key in the fixed order `input_file, sample_name, output_dir,
genome`, with `runtime_minutes` 0 and empty `files`/`summary` mappings, and
the subprocess is never started. -/
theorem run_copykat_analysis_missing_param (p : Params) (w : World)
    (h : p.input_file = none ∨ p.sample_name = none ∨
         p.output_dir = none ∨ p.genome = none) :
    ∃ k,
      (run_copykat_analysis p w).1 =
        { success := false,
          error := some ("Missing required parameter: " ++ k),
          output_dir := none, files := [], summary := [],
          runtime_minutes := 0 } ∧
      (run_copykat_analysis p w).2 = false ∧
      ((p.input_file = none ∧ k = "input_file") ∨
       (p.input_file ≠ none ∧ p.sample_name = none ∧ k = "sample_name") ∨
       (p.input_file ≠ none ∧ p.sample_name ≠ none ∧
         p.output_dir = none ∧ k = "output_dir") ∨
       (p.input_file ≠ none ∧ p.sample_name ≠ none ∧
         p.output_dir ≠ none ∧ p.genome = none ∧ k = "genome")) := by
  cases hi : p.input_file with
  | none =>
      exact ⟨"input_file",
        by simp [run_copykat_analysis, requiredMissing, hi],
        by simp [run_copykat_analysis, requiredMissing, hi],
        Or.inl ⟨rfl, rfl⟩⟩
  | some vi =>
      cases hs : p.sample_name with
      | none =>
          exact ⟨"sample_name",
            by simp [run_copykat_analysis, requiredMissing, hi, hs],
            by simp [run_copykat_analysis, requiredMissing, hi, hs],
            Or.inr (Or.inl ⟨by simp, rfl, rfl⟩)⟩
      | some vs =>
          cases ho : p.output_dir with
          | none =>
              exact ⟨"output_dir",
                by simp [run_copykat_analysis, requiredMissing, hi, hs, ho],
                by simp [run_copykat_analysis, requiredMissing, hi, hs, ho],
                Or.inr (Or.inr (Or.inl ⟨by simp, by simp, rfl, rfl⟩))⟩
          | some vo =>
              cases hg : p.genome with
              | none =>
                  exact ⟨"genome",
                    by simp [run_copykat_analysis, requiredMissing, hi, hs, ho, hg],
                    by simp [run_copykat_analysis, requiredMissing, hi, hs, ho, hg],
                    Or.inr (Or.inr (Or.inr
                      ⟨by simp, by simp, by simp, rfl, rfl⟩))⟩
              | some vg =>
                  rcases h with h | h | h | h <;>
                    first
                      | exact absurd h (by simp [hi])
                      | exact absurd h (by simp [hs])
                      | exact absurd h (by simp [ho])
                      | exact absurd h (by simp [hg])

theorem run_copykat_analysis_missing_param_witness :
    ∃ k,
      (run_copykat_analysis { baseParams with genome := none } okWorld).1 =
        { success := false,
          error := some ("Missing required parameter: " ++ k),
          output_dir := none, files := [], summary := [],
          runtime_minutes := 0 } ∧
      (run_copykat_analysis { baseParams with genome := none } okWorld).2 = false ∧
      ((({ baseParams with genome := none } : Params).input_file = none ∧
          k = "input_file") ∨
       (({ baseParams with genome := none } : Params).input_file ≠ none ∧
          ({ baseParams with genome := none } : Params).sample_name = none ∧
          k = "sample_name") ∨
       (({ baseParams with genome := none } : Params).input_file ≠ none ∧
          ({ baseParams with genome := none } : Params).sample_name ≠ none ∧
          ({ baseParams with genome := none } : Params).output_dir = none ∧
          k = "output_dir") ∨
       (({ baseParams with genome := none } : Params).input_file ≠ none ∧
          ({ baseParams with genome := none } : Params).sample_name ≠ none ∧
          ({ baseParams with genome := none } : Params).output_dir ≠ none ∧
          ({ baseParams with genome := none } : Params).genome = none ∧
          k = "genome")) :=
  run_copykat_analysis_missing_param { baseParams with genome := none } okWorld
    (Or.inr (Or.inr (Or.inr rfl)))

/-- C6 counterexample: with exit code 1 and stderr `boom`, the error string
is `R script failed: boom` — it contains the stderr but not the exit
code, so the claim that the error contains both is false at this input. -/
theorem run_copykat_error_omits_exit_code :
    (run_copykat_analysis baseParams failWorld).1.success = false ∧
    (run_copykat_analysis baseParams failWorld).1.output_dir = none ∧
    (run_copykat_analysis baseParams failWorld).1.error
      = some "R script failed: boom" ∧
    strContains "R script failed: boom" "1" = false := by
  refine ⟨rfl, rfl, ?_, by decide⟩
  show some ("R script failed: " ++ "boom") = some "R script failed: boom"
  rfl

/-- C6 amended: when the engine process exits with a non-zero code, the
orchestrator returns a result with `success` false and `output_dir` null
whose error string contains the captured stderr (prefixed with
`R script failed: `); the exit code itself is not included in the
message. -/
theorem run_copykat_analysis_nonzero_exit (p : Params) (w : World)
    (rc : ℤ) (stderrS : String)
    (hv : requiredMissing p = none)
    (he : w.exec = .calledProcessError rc stderrS) :
    (run_copykat_analysis p w).1.success = false ∧
    (run_copykat_analysis p w).1.output_dir = none ∧
    (run_copykat_analysis p w).1.error
      = some ("R script failed: " ++ stderrS) ∧
    strContains ("R script failed: " ++ stderrS) stderrS = true := by
  refine ⟨?_, ?_, ?_, ?_⟩
  · simp [run_copykat_analysis, hv, he]
  · simp [run_copykat_analysis, hv, he]
  · simp [run_copykat_analysis, hv, he]
  · unfold strContains
    rw [String.data_append]
    exact subOccurs_append_left stderrS.data ("R script failed: ".data)

theorem run_copykat_analysis_nonzero_exit_witness :
    (run_copykat_analysis baseParams
      { failWorld with exec := .calledProcessError 2 "oops" }).1.success = false ∧
    (run_copykat_analysis baseParams
      { failWorld with exec := .calledProcessError 2 "oops" }).1.output_dir = none ∧
    (run_copykat_analysis baseParams
      { failWorld with exec := .calledProcessError 2 "oops" }).1.error
      = some ("R script failed: " ++ "oops") ∧
    strContains ("R script failed: " ++ "oops") "oops" = true :=
  run_copykat_analysis_nonzero_exit baseParams
    { failWorld with exec := .calledProcessError 2 "oops" } 2 "oops" rfl rfl

/-- C4: the code, not the claim, is at fault here.  On a `files` mapping
whose predictions file exists but is malformed, `extract_summary_statistics`
silently returns the all-zero summary (its `except Exception: pass`
swallows the parse error) instead of raising a `ResultParseError` carrying
the path; a wholly missing predictions file also yields the all-zero
summary (the part of the claim the code does satisfy). -/
theorem extract_summary_statistics_swallows_malformed :
    extract_summary_statistics [("predictions", "preds.txt")]
        (fun path => if path = "preds.txt" then some FileContent.malformed else none)
      = zeroExtractSummary ∧
    extract_summary_statistics []
        (fun path => if path = "preds.txt" then some FileContent.malformed else none)
      = zeroExtractSummary := by
  constructor <;> rfl

end CNV

namespace CNV

theorem sublist_extend_right {α : Type} {l x : List α} (y : List α)
    (h : l.Sublist x) : l.Sublist (x ++ y) :=
  h.trans (List.sublist_append_left x y)

theorem length_optArg (f : String) (v : Option String) :
    (optArg f v).length = 2 * optCount v := by
  cases v <;> rfl

/-- C2 counterexample: a dict that carries `plot_genes` produces a command
with no corresponding argument — the command is the bare required-argument
list, identical to the command built without `plot_genes`.  This refutes
the claim that every present optional ParameterSet field (including
`plot_genes`) yields a named argument. -/
theorem build_r_command_ignores_plot_genes :
    ({ baseParams with plot_genes := some "True" } : Params).plot_genes
      = some "True" ∧
    build_r_command r_script_path { baseParams with plot_genes := some "True" }
      = some ["Rscript", r_script_path, "--input", "in.txt", "--output", "out",
              "--name", "s1", "--genome", "hg20"] ∧
    build_r_command r_script_path { baseParams with plot_genes := some "True" }
      = build_r_command r_script_path baseParams :=
  ⟨rfl, rfl, rfl⟩

/-- C2 amended: for every dict containing the four required keys,
`build_r_command` emits the four required arguments, and a named argument
for each of the eight optional keys it handles (`ngene_chr`, `win_size`,
`n_cores`, `LOW_DR`, `UP_DR`, `KS_cut`, `distance`, `cell_line`) exactly
when that key is present — the command length accounts for the present
ones and nothing else — while a present `plot_genes` key produces no
argument at all. -/
theorem build_r_command_arguments (p : Params) (i o n g : String)
    (hi : p.input_file = some i) (ho : p.output_dir = some o)
    (hn : p.sample_name = some n) (hg : p.genome = some g) :
    ∃ cmd, build_r_command r_script_path p = some cmd ∧
      ["--input", i].Sublist cmd ∧
      ["--output", o].Sublist cmd ∧
      ["--name", n].Sublist cmd ∧
      ["--genome", g].Sublist cmd ∧
      (∀ s, p.ngene_chr = some s → ["--ngene_chr", s].Sublist cmd) ∧
      (∀ s, p.win_size = some s → ["--win_size", s].Sublist cmd) ∧
      (∀ s, p.n_cores = some s → ["--cores", s].Sublist cmd) ∧
      (∀ s, p.LOW_DR = some s → ["--low_dr", s].Sublist cmd) ∧
      (∀ s, p.UP_DR = some s → ["--up_dr", s].Sublist cmd) ∧
      (∀ s, p.KS_cut = some s → ["--ks_cut", s].Sublist cmd) ∧
      (∀ s, p.distance = some s → ["--distance", s].Sublist cmd) ∧
      (∀ s, p.cell_line = some s → ["--cell_line", s].Sublist cmd) ∧
      cmd.length = 10 + 2 * numPresentOpts p ∧
      build_r_command r_script_path p =
        build_r_command r_script_path { p with plot_genes := none } := by
  refine ⟨["Rscript", r_script_path, "--input", i, "--output", o,
           "--name", n, "--genome", g]
        ++ optArg "--ngene_chr" p.ngene_chr
        ++ optArg "--win_size" p.win_size
        ++ optArg "--cores" p.n_cores
        ++ optArg "--low_dr" p.LOW_DR
        ++ optArg "--up_dr" p.UP_DR
        ++ optArg "--ks_cut" p.KS_cut
        ++ optArg "--distance" p.distance
        ++ optArg "--cell_line" p.cell_line,
      ?_, ?_, ?_, ?_, ?_, ?_, ?_, ?_, ?_, ?_, ?_, ?_, ?_, ?_, ?_⟩
  · simp [build_r_command, hi, ho, hn, hg]
  · exact (List.Sublist.cons _ (List.Sublist.cons _ (List.Sublist.cons₂ _
      (List.Sublist.cons₂ _ (List.nil_sublist _))))).trans
      (sublist_extend_right _ (sublist_extend_right _ (sublist_extend_right _
        (sublist_extend_right _ (sublist_extend_right _ (sublist_extend_right _
          (sublist_extend_right _ (sublist_extend_right _ (List.Sublist.refl _)))))))))
  · exact (List.Sublist.cons _ (List.Sublist.cons _ (List.Sublist.cons _
      (List.Sublist.cons _ (List.Sublist.cons₂ _
      (List.Sublist.cons₂ _ (List.nil_sublist _))))))).trans
      (sublist_extend_right _ (sublist_extend_right _ (sublist_extend_right _
        (sublist_extend_right _ (sublist_extend_right _ (sublist_extend_right _
          (sublist_extend_right _ (sublist_extend_right _ (List.Sublist.refl _)))))))))
  · exact (List.Sublist.cons _ (List.Sublist.cons _ (List.Sublist.cons _
      (List.Sublist.cons _ (List.Sublist.cons _ (List.Sublist.cons _
      (List.Sublist.cons₂ _
      (List.Sublist.cons₂ _ (List.nil_sublist _))))))))).trans
      (sublist_extend_right _ (sublist_extend_right _ (sublist_extend_right _
        (sublist_extend_right _ (sublist_extend_right _ (sublist_extend_right _
          (sublist_extend_right _ (sublist_extend_right _ (List.Sublist.refl _)))))))))
  · exact (List.Sublist.cons _ (List.Sublist.cons _ (List.Sublist.cons _
      (List.Sublist.cons _ (List.Sublist.cons _ (List.Sublist.cons _
      (List.Sublist.cons _ (List.Sublist.cons _ (List.Sublist.cons₂ _
      (List.Sublist.cons₂ _ (List.nil_sublist _))))))))))).trans
      (sublist_extend_right _ (sublist_extend_right _ (sublist_extend_right _
        (sublist_extend_right _ (sublist_extend_right _ (sublist_extend_right _
          (sublist_extend_right _ (sublist_extend_right _ (List.Sublist.refl _)))))))))
  · intro s hs
    rw [hs]
    exact sublist_extend_right _ (sublist_extend_right _ (sublist_extend_right _
      (sublist_extend_right _ (sublist_extend_right _ (sublist_extend_right _
        (sublist_extend_right _ (List.sublist_append_right _ _)))))))
  · intro s hs
    rw [hs]
    exact sublist_extend_right _ (sublist_extend_right _ (sublist_extend_right _
      (sublist_extend_right _ (sublist_extend_right _ (sublist_extend_right _
        (List.sublist_append_right _ _))))))
  · intro s hs
    rw [hs]
    exact sublist_extend_right _ (sublist_extend_right _ (sublist_extend_right _
      (sublist_extend_right _ (sublist_extend_right _
        (List.sublist_append_right _ _)))))
  · intro s hs
    rw [hs]
    exact sublist_extend_right _ (sublist_extend_right _ (sublist_extend_right _
      (sublist_extend_right _ (List.sublist_append_right _ _))))
  · intro s hs
    rw [hs]
    exact sublist_extend_right _ (sublist_extend_right _ (sublist_extend_right _
      (List.sublist_append_right _ _)))
  · intro s hs
    rw [hs]
    exact sublist_extend_right _ (sublist_extend_right _
      (List.sublist_append_right _ _))
  · intro s hs
    rw [hs]
    exact sublist_extend_right _ (List.sublist_append_right _ _)
  · intro s hs
    rw [hs]
    exact List.sublist_append_right _ _
  · simp only [List.length_append, length_optArg, numPresentOpts]
    simp
    omega
  · simp [build_r_command, hi, ho, hn, hg]

end CNV

namespace CNV

theorem build_r_command_arguments_witness :
    ∃ cmd, build_r_command r_script_path
        { baseParams with ngene_chr := some "5", distance := some "euclidean" }
        = some cmd ∧
      ["--input", "in.txt"].Sublist cmd ∧
      ["--output", "out"].Sublist cmd ∧
      ["--name", "s1"].Sublist cmd ∧
      ["--genome", "hg20"].Sublist cmd ∧
      (∀ s, ({ baseParams with ngene_chr := some "5", distance := some "euclidean" }
          : Params).ngene_chr = some s → ["--ngene_chr", s].Sublist cmd) ∧
      (∀ s, ({ baseParams with ngene_chr := some "5", distance := some "euclidean" }
          : Params).win_size = some s → ["--win_size", s].Sublist cmd) ∧
      (∀ s, ({ baseParams with ngene_chr := some "5", distance := some "euclidean" }
          : Params).n_cores = some s → ["--cores", s].Sublist cmd) ∧
      (∀ s, ({ baseParams with ngene_chr := some "5", distance := some "euclidean" }
          : Params).LOW_DR = some s → ["--low_dr", s].Sublist cmd) ∧
      (∀ s, ({ baseParams with ngene_chr := some "5", distance := some "euclidean" }
          : Params).UP_DR = some s → ["--up_dr", s].Sublist cmd) ∧
      (∀ s, ({ baseParams with ngene_chr := some "5", distance := some "euclidean" }
          : Params).KS_cut = some s → ["--ks_cut", s].Sublist cmd) ∧
      (∀ s, ({ baseParams with ngene_chr := some "5", distance := some "euclidean" }
          : Params).distance = some s → ["--distance", s].Sublist cmd) ∧
      (∀ s, ({ baseParams with ngene_chr := some "5", distance := some "euclidean" }
          : Params).cell_line = some s → ["--cell_line", s].Sublist cmd) ∧
      cmd.length = 10 + 2 * numPresentOpts
        { baseParams with ngene_chr := some "5", distance := some "euclidean" } ∧
      build_r_command r_script_path
          { baseParams with ngene_chr := some "5", distance := some "euclidean" } =
        build_r_command r_script_path
          { { baseParams with ngene_chr := some "5", distance := some "euclidean" }
            with plot_genes := none } :=
  build_r_command_arguments
    { baseParams with ngene_chr := some "5", distance := some "euclidean" }
    "in.txt" "out" "s1" "hg20" rfl rfl rfl rfl

end CNV

namespace CNV

theorem pyMax_bounds (key : DirEntry → ℤ) (cur : DirEntry) (l : List DirEntry) :
    key cur ≤ key (pyMax key cur l) ∧ ∀ x ∈ l, key x ≤ key (pyMax key cur l) := by
  induction l generalizing cur with
  | nil => exact ⟨le_refl _, by simp⟩
  | cons x xs ih =>
    simp only [pyMax]
    have hnext : key cur ≤ key (if key x > key cur then x else cur) ∧
        key x ≤ key (if key x > key cur then x else cur) := by
      by_cases h : key x > key cur
      · rw [if_pos h]
        exact ⟨le_of_lt h, le_refl _⟩
      · rw [if_neg h]
        push_neg at h
        exact ⟨le_refl _, h⟩
    obtain ⟨h1, h2⟩ := ih (if key x > key cur then x else cur)
    refine ⟨le_trans hnext.1 h1, ?_⟩
    intro y hy
    rcases List.mem_cons.mp hy with rfl | hy'
    · exact le_trans hnext.2 h1
    · exact h2 y hy'

theorem pyMax_first_maximal (key : DirEntry → ℤ) (cur : DirEntry) (l : List DirEntry) :
    ∃ l₁ l₂, cur :: l = l₁ ++ (pyMax key cur l) :: l₂ ∧
      ∀ x ∈ l₁, key x < key (pyMax key cur l) := by
  induction l generalizing cur with
  | nil => exact ⟨[], [], rfl, by simp⟩
  | cons x xs ih =>
    simp only [pyMax]
    by_cases h : key x > key cur
    · rw [if_pos h]
      obtain ⟨l₁, l₂, heq, hlt⟩ := ih x
      refine ⟨cur :: l₁, l₂, ?_, ?_⟩
      · rw [List.cons_append, ← heq]
      · intro y hy
        rcases List.mem_cons.mp hy with rfl | hy'
        · exact lt_of_lt_of_le h (pyMax_bounds key x xs).1
        · exact hlt y hy'
    · rw [if_neg h]
      push_neg at h
      obtain ⟨l₁, l₂, heq, hlt⟩ := ih cur
      cases l₁ with
      | nil =>
        simp only [List.nil_append] at heq
        have hcur : cur = pyMax key cur xs := (List.cons.inj heq).1
        refine ⟨[], x :: xs, ?_, by simp⟩
        rw [List.nil_append, ← hcur]
      | cons a l₁' =>
        rw [List.cons_append] at heq
        have ha : a = cur := (List.cons.inj heq.symm).1
        have hxs : xs = l₁' ++ pyMax key cur xs :: l₂ := (List.cons.inj heq).2
        refine ⟨cur :: x :: l₁', l₂, ?_, ?_⟩
        · rw [List.cons_append, List.cons_append, ← hxs]
        · intro y hy
          have hcurlt : key cur < key (pyMax key cur xs) := by
            have := hlt a (List.mem_cons_self a l₁')
            rwa [ha] at this
          rcases List.mem_cons.mp hy with rfl | hy'
          · exact hcurlt
          · rcases List.mem_cons.mp hy' with rfl | hy''
            · exact lt_of_le_of_lt h hcurlt
            · exact hlt y (List.mem_cons_of_mem a hy'')

/-- C3 amended: the locator returns absent when the base directory is
missing or no entry carries the `sample_name + "_"` prefix; otherwise it
returns an entry with the most recent modification time — but among entries
with equal modification time it keeps the **first in directory-enumeration
order** (Python's `max` keeps the earlier element on ties), not the
lexicographically greatest name. -/
theorem find_output_directory_latest (base : Option (List DirEntry))
    (sample_name : String) :
    (base = none → find_output_directory base sample_name = none) ∧
    (∀ listing, base = some listing →
      ((listing.filter
          (fun e => (sample_name ++ "_").data.isPrefixOf e.name.data)) = [] →
        find_output_directory base sample_name = none) ∧
      (∀ e es,
        (listing.filter
          (fun e => (sample_name ++ "_").data.isPrefixOf e.name.data)) = e :: es →
        ∃ m l₁ l₂,
          find_output_directory base sample_name = some m.name ∧
          e :: es = l₁ ++ m :: l₂ ∧
          (∀ x ∈ e :: es, x.mtime ≤ m.mtime) ∧
          (∀ x ∈ l₁, x.mtime < m.mtime))) := by
  constructor
  · intro hb
    simp [find_output_directory, hb]
  · intro listing hb
    subst hb
    constructor
    · intro hf
      simp only [find_output_directory]
      rw [hf]
    · intro e es hf
      refine ⟨pyMax (fun d => d.mtime) e es, ?_⟩
      obtain ⟨l₁, l₂, heq, hlt⟩ := pyMax_first_maximal (fun d => d.mtime) e es
      refine ⟨l₁, l₂, ?_, heq, ?_, hlt⟩
      · simp only [find_output_directory]
        rw [hf]
      · intro x hx
        rcases List.mem_cons.mp hx with rfl | hx'
        · exact (pyMax_bounds (fun d => d.mtime) x es).1
        · exact (pyMax_bounds (fun d => d.mtime) e es).2 x hx'

/-- C3 counterexample: two matching entries with equal modification time;
the code returns the first-enumerated entry `sampleA_20240101`, not the
lexicographically greatest name `sampleA_20240115` the claim requires. -/
theorem find_output_directory_tie_not_lex :
    find_output_directory
        (some [{ name := "sampleA_20240101", mtime := 5 },
               { name := "sampleA_20240115", mtime := 5 }]) "sampleA"
      = some "sampleA_20240101" ∧
    ("sampleA_20240101" : String) < "sampleA_20240115" := by
  refine ⟨by decide, ?_⟩
  rw [String.lt_iff_toList_lt]
  decide

theorem find_output_directory_latest_witness :
    ∃ m l₁ l₂,
      find_output_directory
          (some [{ name := "sampleA_20240101", mtime := 5 },
                 { name := "sampleA_20240115", mtime := 9 }]) "sampleA"
        = some m.name ∧
      ({ name := "sampleA_20240101", mtime := 5 } : DirEntry) ::
          [{ name := "sampleA_20240115", mtime := 9 }] = l₁ ++ m :: l₂ ∧
      (∀ x ∈ ({ name := "sampleA_20240101", mtime := 5 } : DirEntry) ::
          [{ name := "sampleA_20240115", mtime := 9 }], x.mtime ≤ m.mtime) ∧
      (∀ x ∈ l₁, x.mtime < m.mtime) :=
  ((find_output_directory_latest
      (some [{ name := "sampleA_20240101", mtime := 5 },
             { name := "sampleA_20240115", mtime := 9 }]) "sampleA").2
    [{ name := "sampleA_20240101", mtime := 5 },
     { name := "sampleA_20240115", mtime := 9 }] rfl).2
    { name := "sampleA_20240101", mtime := 5 }
    [{ name := "sampleA_20240115", mtime := 9 }] (by decide)

end CNV

namespace CNV

/-- C5 counterexample: on a table with no confidence column,
`generate_summary` returns a dict in which `mean_confidence` is present and
equal to 0 — not absent as the claim requires. -/
theorem generate_summary_mean_conf_zero_when_absent :
    noConfTable.hasConf = false ∧
    (generate_summary noConfTable).lookup "mean_confidence"
      = some (PyFloat.num 0) :=
  ⟨rfl, rfl⟩

/-- C5 amended: when the confidence column is present and the table is
non-empty, `mean_confidence` is the arithmetic mean of that column over
all rows; on a present column with zero rows it is `NaN`; when the column
is absent the key is still present, set to 0 (not left absent). -/
theorem generate_summary_mean_confidence (t : PredTable) :
    (t.hasConf = true → t.rows ≠ [] →
      (generate_summary t).lookup "mean_confidence"
        = some (.num ((t.rows.map Prod.snd).sum / (t.rows.length : ℚ)))) ∧
    (t.hasConf = true → t.rows = [] →
      (generate_summary t).lookup "mean_confidence" = some PyFloat.nan) ∧
    (t.hasConf = false →
      (generate_summary t).lookup "mean_confidence" = some (PyFloat.num 0)) := by
  have hlookup : (generate_summary t).lookup "mean_confidence"
      = some (if t.hasConf then pandasMean (t.rows.map Prod.snd)
              else PyFloat.num 0) := rfl
  refine ⟨?_, ?_, ?_⟩
  · intro hc hr
    rw [hlookup, if_pos hc]
    cases hrows : t.rows with
    | nil => exact absurd hrows hr
    | cons a l =>
        simp [pandasMean, hrows]
  · intro hc hr
    rw [hlookup, if_pos hc, hr]
    rfl
  · intro hc
    rw [hlookup, if_neg (by simp [hc])]

theorem generate_summary_mean_confidence_witness :
    (generate_summary confTable).lookup "mean_confidence"
      = some (.num ((confTable.rows.map Prod.snd).sum
          / (confTable.rows.length : ℚ))) ∧
    (generate_summary noConfTable).lookup "mean_confidence"
      = some (PyFloat.num 0) :=
  ⟨(generate_summary_mean_confidence confTable).1 rfl (by decide),
   (generate_summary_mean_confidence noConfTable).2.2 rfl⟩

theorem frac_conditions (b : Bool) (rows : List (String × ℚ)) :
    ((if b then
        (if 0 < rows.length then
          (((if b then (rows.map Prod.fst).count "aneuploid" else 0 : ℕ) : ℚ)
            / ((rows.length : ℚ))) else 0) else 0)
      = (if 0 < ((rows.length : ℚ)) then
          (((if b then (rows.map Prod.fst).count "aneuploid" else 0 : ℕ) : ℚ)
            / ((rows.length : ℚ))) else 0)) ∧
    0 ≤ (if b then
        (if 0 < rows.length then
          (((if b then (rows.map Prod.fst).count "aneuploid" else 0 : ℕ) : ℚ)
            / ((rows.length : ℚ))) else 0) else 0) ∧
    (if b then
        (if 0 < rows.length then
          (((if b then (rows.map Prod.fst).count "aneuploid" else 0 : ℕ) : ℚ)
            / ((rows.length : ℚ))) else 0) else 0) ≤ 1 := by
  have hcnt : ((rows.map Prod.fst).count "aneuploid" : ℚ) ≤ (rows.length : ℚ) := by
    have h := List.count_le_length ("aneuploid" : String) (rows.map Prod.fst)
    rw [List.length_map] at h
    exact_mod_cast h
  cases b with
  | false =>
      refine ⟨?_, by simp, by simp⟩
      simp [zero_div]
  | true =>
      by_cases h0 : 0 < rows.length
      · refine ⟨by simp [h0, Nat.cast_pos], ?_, ?_⟩
        · simp only [if_pos h0, if_true]
          positivity
        · simp only [if_pos h0, if_true]
          rw [div_le_one (by exact_mod_cast h0)]
          simpa using hcnt
      · refine ⟨by simp [h0, Nat.cast_pos], by simp [h0], by simp [h0]⟩

/-- C7: the summaries computed by `generate_summary` and by
`extract_summary_statistics` always satisfy
`aneuploid_fraction = n_aneuploid / n_cells` when `n_cells > 0` and `0`
otherwise, with the fraction in `[0, 1]`; in particular an empty table
yields `n_cells = 0` and `aneuploid_fraction = 0` with no
division-by-zero fault. -/
theorem summary_aneuploid_fraction_safe (t : PredTable)
    (files : List (String × String)) (fs : String → Option FileContent) :
    (∃ nc na f : ℚ,
      (generate_summary t).lookup "n_cells" = some (.num nc) ∧
      (generate_summary t).lookup "n_aneuploid" = some (.num na) ∧
      (generate_summary t).lookup "aneuploid_fraction" = some (.num f) ∧
      f = (if 0 < nc then na / nc else 0) ∧ 0 ≤ f ∧ f ≤ 1 ∧
      (t.rows = [] → nc = 0 ∧ f = 0)) ∧
    (∃ nc na f : ℚ,
      (extract_summary_statistics files fs).lookup "n_cells" = some (.num nc) ∧
      (extract_summary_statistics files fs).lookup "n_aneuploid" = some (.num na) ∧
      (extract_summary_statistics files fs).lookup "aneuploid_fraction"
        = some (.num f) ∧
      f = (if 0 < nc then na / nc else 0) ∧ 0 ≤ f ∧ f ≤ 1) := by
  constructor
  · refine ⟨(t.rows.length : ℚ),
      ((if t.hasPred then (t.rows.map Prod.fst).count "aneuploid" else 0 : ℕ) : ℚ),
      (if t.hasPred then
        (if 0 < t.rows.length then
          (((if t.hasPred then (t.rows.map Prod.fst).count "aneuploid"
              else 0 : ℕ) : ℚ) / ((t.rows.length : ℚ))) else 0) else 0),
      rfl, rfl, rfl,
      (frac_conditions t.hasPred t.rows).1,
      (frac_conditions t.hasPred t.rows).2.1,
      (frac_conditions t.hasPred t.rows).2.2, ?_⟩
    intro hr
    constructor
    · simp [hr]
    · simp [hr]
  · have hzero : ∀ d : PyDict, d = zeroExtractSummary →
        ∃ nc na f : ℚ,
          d.lookup "n_cells" = some (.num nc) ∧
          d.lookup "n_aneuploid" = some (.num na) ∧
          d.lookup "aneuploid_fraction" = some (.num f) ∧
          f = (if 0 < nc then na / nc else 0) ∧ 0 ≤ f ∧ f ≤ 1 := by
      intro d hd
      subst hd
      exact ⟨0, 0, 0, rfl, rfl, rfl, by simp, le_refl 0, by norm_num⟩
    cases hl : files.lookup "predictions" with
    | none => exact hzero _ (by simp [extract_summary_statistics, hl])
    | some path =>
        by_cases hpath : path = ""
        · exact hzero _ (by simp [extract_summary_statistics, hl, hpath])
        · cases hfc : fs path with
          | none =>
              exact hzero _ (by simp [extract_summary_statistics, hl, hpath, hfc])
          | some fc =>
              cases fc with
              | malformed =>
                  exact hzero _
                    (by simp [extract_summary_statistics, hl, hpath, hfc])
              | table t' =>
                  have hd : extract_summary_statistics files fs =
                      [("n_cells", .num (t'.rows.length : ℚ)),
                       ("n_aneuploid", .num ((if t'.hasPred then
                          predCount t' "aneuploid" else 0 : ℕ) : ℚ)),
                       ("n_diploid", .num ((if t'.hasPred then
                          predCount t' "diploid" else 0 : ℕ) : ℚ)),
                       ("n_not_defined", .num ((if t'.hasPred then
                          predCount t' "not.defined" else 0 : ℕ) : ℚ)),
                       ("aneuploid_fraction", .num
                         (if t'.hasPred then
                           (if 0 < t'.rows.length then
                             (((if t'.hasPred then predCount t' "aneuploid"
                                 else 0 : ℕ) : ℚ)
                               / ((t'.rows.length : ℚ))) else 0) else 0))] := by
                    simp [extract_summary_statistics, hl, hpath, hfc]
                  rw [hd]
                  exact ⟨(t'.rows.length : ℚ),
                    ((if t'.hasPred then (t'.rows.map Prod.fst).count "aneuploid"
                        else 0 : ℕ) : ℚ),
                    (if t'.hasPred then
                      (if 0 < t'.rows.length then
                        (((if t'.hasPred then
                            (t'.rows.map Prod.fst).count "aneuploid"
                            else 0 : ℕ) : ℚ)
                          / ((t'.rows.length : ℚ))) else 0) else 0),
                    rfl, rfl, rfl,
                    (frac_conditions t'.hasPred t'.rows).1,
                    (frac_conditions t'.hasPred t'.rows).2.1,
                    (frac_conditions t'.hasPred t'.rows).2.2⟩

theorem summary_aneuploid_fraction_safe_witness :
    (∃ nc na f : ℚ,
      (generate_summary emptyTable).lookup "n_cells" = some (.num nc) ∧
      (generate_summary emptyTable).lookup "n_aneuploid" = some (.num na) ∧
      (generate_summary emptyTable).lookup "aneuploid_fraction" = some (.num f) ∧
      f = (if 0 < nc then na / nc else 0) ∧ 0 ≤ f ∧ f ≤ 1 ∧
      (emptyTable.rows = [] → nc = 0 ∧ f = 0)) ∧
    (∃ nc na f : ℚ,
      (extract_summary_statistics [] (fun _ => none)).lookup "n_cells"
        = some (.num nc) ∧
      (extract_summary_statistics [] (fun _ => none)).lookup "n_aneuploid"
        = some (.num na) ∧
      (extract_summary_statistics [] (fun _ => none)).lookup "aneuploid_fraction"
        = some (.num f) ∧
      f = (if 0 < nc then na / nc else 0) ∧ 0 ≤ f ∧ f ≤ 1) :=
  summary_aneuploid_fraction_safe emptyTable [] (fun _ => none)

end CNV

namespace CNV

theorem stageEvent_complete (i : ℕ) (m : Option String) :
    (stageEvent i m).complete = false := rfl

theorem finalEvent_complete (rc : ℤ) : (finalEvent rc).complete = true := by
  unfold finalEvent
  split <;> rfl

/-- C8: for every terminating run, the event sequence of the monitor is
finite, contains exactly one event with `complete = true`, and that event
is the last one and reflects the true exit status: success fields for
return code 0, and a failure event carrying the exit code (progress reset
to 0, overriding the canned `1.0`/`Complete!` checkpoint) otherwise. -/
theorem monitor_progress_single_completion (polls : ℕ) (rc : ℤ)
    (logMsg : ℕ → Option String) :
    (monitor_analysis_progress polls rc logMsg).length = min polls 6 + 1 ∧
    (monitor_analysis_progress polls rc logMsg).countP (fun e => e.complete) = 1 ∧
    (∃ e, (monitor_analysis_progress polls rc logMsg).getLast? = some e ∧
      e.complete = true ∧
      e.success = some (rc == 0) ∧
      e.error_code = (if rc = 0 then none else some rc) ∧
      e.progress = (if rc = 0 then 1 else 0)) ∧
    (∀ e ∈ (monitor_analysis_progress polls rc logMsg).dropLast,
      e.complete = false) := by
  refine ⟨?_, ?_, ?_, ?_⟩
  · simp [monitor_analysis_progress, stages]
  · simp [monitor_analysis_progress, List.countP_append, List.countP_map,
      Function.comp, stageEvent_complete, finalEvent_complete, List.countP_cons]
  · refine ⟨finalEvent rc, List.getLast?_concat _, finalEvent_complete rc,
      ?_, ?_, ?_⟩ <;>
      by_cases h : rc = 0 <;> simp [finalEvent, h]
  · intro e he
    unfold monitor_analysis_progress at he
    rw [List.dropLast_concat] at he
    obtain ⟨i, _, rfl⟩ := List.mem_map.mp he
    rfl

theorem monitor_progress_single_completion_witness :
    (monitor_analysis_progress 7 2 (fun _ => none)).length = min 7 6 + 1 ∧
    (monitor_analysis_progress 7 2 (fun _ => none)).countP
      (fun e => e.complete) = 1 ∧
    (∃ e, (monitor_analysis_progress 7 2 (fun _ => none)).getLast? = some e ∧
      e.complete = true ∧
      e.success = some ((2 : ℤ) == 0) ∧
      e.error_code = (if (2 : ℤ) = 0 then none else some 2) ∧
      e.progress = (if (2 : ℤ) = 0 then 1 else 0)) ∧
    (∀ e ∈ (monitor_analysis_progress 7 2 (fun _ => none)).dropLast,
      e.complete = false) :=
  monitor_progress_single_completion 7 2 (fun _ => none)

/-- C9 counterexample: the string `_` is non-empty, consists only of
characters from `[A-Za-z0-9_]`, and is within the length bound, yet
`validate_sample_name` rejects it (after stripping underscores nothing is
left, and Python's `''.isalnum()` is false). -/
theorem validate_sample_name_rejects_underscore_only :
    ("_" : String) ≠ "" ∧
    ("_" : String).data.all (fun c => c.isAlphanum || c == '_') = true ∧
    ("_" : String).length ≤ 50 ∧
    (validate_sample_name "_").1 = false := by
  decide

/-- C9 amended: `validate_sample_name` accepts a string iff every
character is ASCII-alphanumeric or an underscore, at least one character
is not an underscore, and the length is at most 50 (the model is
restricted to ASCII, where Python's Unicode-aware `isalnum` coincides with
`Char.isAlphanum`; over Unicode the code is also more permissive than the
claimed `[A-Za-z0-9_]+`). -/
theorem validate_sample_name_iff (name : String) :
    (validate_sample_name name).1 = true ↔
      (name.data.all (fun c => c.isAlphanum || c == '_') = true ∧
       name.data.any (fun c => c != '_') = true ∧
       name.length ≤ 50) := by
  unfold validate_sample_name
  by_cases h0 : name = ""
  · subst h0
    decide
  · rw [if_neg h0]
    constructor
    · intro h
      by_cases hA : pyIsalnum (name.data.filter (fun c => c != '_')) = true
      · rw [if_neg (by simp [hA])] at h
        by_cases hL : name.length > 50
        · rw [if_pos hL] at h
          exact absurd h (by simp)
        · push_neg at hL
          unfold pyIsalnum at hA
          rw [Bool.and_eq_true] at hA
          obtain ⟨hne, hall⟩ := hA
          refine ⟨?_, ?_, hL⟩
          · rw [List.all_eq_true] at hall ⊢
            intro c hc
            by_cases hu : c = '_'
            · simp [hu]
            · have hcf : c ∈ name.data.filter (fun c => c != '_') :=
                List.mem_filter.mpr ⟨hc, by simp [hu]⟩
              simp [hall c hcf]
          · rw [List.any_eq_true]
            have hne' : name.data.filter (fun c => c != '_') ≠ [] := by
              intro hnil
              rw [hnil] at hne
              simp at hne
            obtain ⟨c, hc⟩ := List.exists_mem_of_ne_nil _ hne'
            exact ⟨c, (List.mem_filter.mp hc).1, (List.mem_filter.mp hc).2⟩
      · have hX : pyIsalnum (name.data.filter (fun c => c != '_')) = false :=
          Bool.not_eq_true _ ▸ Bool.eq_false_iff.mpr (fun hx => hA hx)
        rw [if_pos (by simp [hX])] at h
        exact absurd h (by simp)
    · rintro ⟨hall, hany, hlen⟩
      have hne : name.data.filter (fun c => c != '_') ≠ [] := by
        rw [List.any_eq_true] at hany
        obtain ⟨c, hc, hcu⟩ := hany
        intro hnil
        have hcf : c ∈ name.data.filter (fun c => c != '_') :=
          List.mem_filter.mpr ⟨hc, hcu⟩
        rw [hnil] at hcf
        exact absurd hcf (List.not_mem_nil c)
      have hfall : (name.data.filter (fun c => c != '_')).all
          Char.isAlphanum = true := by
        rw [List.all_eq_true]
        intro c hc
        obtain ⟨hcm, hcu⟩ := List.mem_filter.mp hc
        rw [List.all_eq_true] at hall
        have hor := hall c hcm
        simp only [Bool.or_eq_true, beq_iff_eq] at hor
        rcases hor with h1 | h2
        · exact h1
        · exact absurd hcu (by simp [h2])
      have hpy : pyIsalnum (name.data.filter (fun c => c != '_')) = true := by
        unfold pyIsalnum
        rw [Bool.and_eq_true]
        refine ⟨?_, hfall⟩
        simp only [Bool.not_eq_true']
        exact (List.isEmpty_eq_false).mpr hne
      rw [if_neg (by simp [hpy]), if_neg (by omega : ¬ name.length > 50)]

end CNV
